import Mathlib

/-!
# Shallow embedding of the upload/processing pipeline in
# `src/frontend/src/routes/_layout/index.tsx`

The component `Dashboard` drives a four-stage remote pipeline (upload →
recognition task → long-running operation → conversion task) from a React
component.  The orchestration state consists of the `uploadStatus` state
value, the `downloadUrl` / `showDownload` state values, and three
`useRef`-held interval handles (`statusCheckInterval`,
`operationCheckInterval`, `convertCheckInterval`).

The embedding models the browser event loop explicitly:

* `World.activeTimers` is the set (list) of live `setInterval` timers,
  each tagged with the callback it runs (`LoopKind`); `setInterval`
  allocates a fresh timer id from `World.nextTimer`, `clearInterval`
  removes an id from `activeTimers`.
* An async interval callback suspends at its first `await` (the remote
  check).  `World.inFlight` records callback invocations that have been
  dispatched (the timer fired) but whose first `await` has not resolved
  yet.  Crucially — and faithfully to the JS source — `clearInterval`
  does not remove in-flight invocations: once the awaited promise
  resolves, the rest of the callback body runs regardless of whether the
  interval was cleared in between.  The remainder of a callback after its
  first `await` is modelled as one atomic step, parameterised by the
  responses of the remote calls it performs.
* Remote calls are environment-supplied responses: `Except String α`
  models a promise that either resolves with a value or rejects with an
  error message (`(e as Error).message`).

Remote identifiers (`signed_url`, `file_key`, `file_name`, `task_id`,
`operation_name` as a value) flow only back into remote calls, whose
responses the environment supplies per event, so their string values are
elided from the state; only the fields the code branches on (the `status`
string, the `done` flag, presence/truthiness of `operation_name` and
`gcs_download_path`) are kept.
-/

/-- The `stage` field of the `UploadStatus` interface (lines 29–40):
`"idle" | "uploading" | "processing" | "converting" | "completed" | "error"`. -/
inductive Stage where
  | idle
  | uploading
  | processing
  | converting
  | completed
  | error
deriving DecidableEq, Repr, Fintype

/-- The `UploadStatus` interface (lines 29–40): stage, message, progress,
optional error description. -/
structure UploadStatus where
  stage : Stage
  message : String
  progress : Nat
  error : Option String
deriving DecidableEq, Repr

/-- Which of the three interval callbacks a timer runs:
`statusCheckInterval` (line 125), `operationCheckInterval` (line 142),
`convertCheckInterval` (line 162). -/
inductive LoopKind where
  | statusCheck
  | operationCheck
  | convertCheck
deriving DecidableEq, Repr, BEq

/-- The orchestration-relevant state of the `Dashboard` component plus the
browser event loop's timer/promise bookkeeping. -/
structure World where
  /-- `useState<UploadStatus>` (line 44). -/
  uploadStatus : UploadStatus
  /-- `useState<string>` `downloadUrl` (line 49). -/
  downloadUrl : String
  /-- `useState` `showDownload` (line 50). -/
  showDownload : Bool
  /-- `statusCheckInterval.current` (line 52): the timer id the ref holds,
  `none` for `null`. -/
  statusCheckInterval : Option Nat
  /-- `operationCheckInterval.current` (line 53). -/
  operationCheckInterval : Option Nat
  /-- `convertCheckInterval.current` (line 54). -/
  convertCheckInterval : Option Nat
  /-- Live `setInterval` timers with the callback each one runs. -/
  activeTimers : List (Nat × LoopKind)
  /-- Dispatched interval-callback invocations suspended at their first
  `await`. -/
  inFlight : List LoopKind
  /-- Fresh timer-id counter. -/
  nextTimer : Nat
deriving DecidableEq, Repr

/-- The component's initial state: `{stage: "idle", message: "", progress: 0}`
(lines 44–48), empty `downloadUrl`, `showDownload` false, all interval refs
`null`, no timers, nothing in flight. -/
def initialWorld : World :=
  { uploadStatus := ⟨Stage.idle, "", 0, none⟩
    downloadUrl := ""
    showDownload := false
    statusCheckInterval := none
    operationCheckInterval := none
    convertCheckInterval := none
    activeTimers := []
    inFlight := []
    nextTimer := 0 }

/-- `updateStatus` (lines 56–63): replaces the whole `uploadStatus` value. -/
def updateStatus (stage : Stage) (message : String) (progress : Nat)
    (error : Option String) (w : World) : World :=
  { w with uploadStatus := ⟨stage, message, progress, error⟩ }

/-- JS `clearInterval(h)`: stops the timer with id `h`.  The code always
passes `ref.current!`; when `current` is `null` (`none`) this is a no-op,
matching `clearInterval(null)`.  The ref itself is not nulled here. -/
def clearInterval (h : Option Nat) (w : World) : World :=
  match h with
  | none => w
  | some t => { w with activeTimers := w.activeTimers.filter (fun p => p.1 != t) }

/-- `setInterval(cb, ms)`: allocates a fresh timer id running callback `k`,
returning the id (the model does not track the numeric period, which never
influences which transitions are possible, only their real-time pacing). -/
def setIntervalTimer (k : LoopKind) (w : World) : Nat × World :=
  (w.nextTimer,
   { w with
      activeTimers := w.activeTimers ++ [(w.nextTimer, k)]
      nextTimer := w.nextTimer + 1 })

/-- `clearIntervals` (lines 65–78): for each of the three refs, if the ref
is non-null, clear its timer and null the ref. -/
def clearIntervals (w : World) : World :=
  let w1 :=
    if w.statusCheckInterval.isSome then
      { clearInterval w.statusCheckInterval w with statusCheckInterval := none }
    else w
  let w2 :=
    if w1.operationCheckInterval.isSome then
      { clearInterval w1.operationCheckInterval w1 with operationCheckInterval := none }
    else w1
  if w2.convertCheckInterval.isSome then
    { clearInterval w2.convertCheckInterval w2 with convertCheckInterval := none }
  else w2

/-- `resetUpload` (lines 244–252): `clearIntervals()`, reset `uploadStatus`
to `{stage: "idle", message: "", progress: 0}` (error absent), hide the
download button, clear the download URL.  (Clearing the file input's DOM
value is outside the model.) -/
def resetUpload (w : World) : World :=
  let w := clearIntervals w
  let w := { w with uploadStatus := ⟨Stage.idle, "", 0, none⟩ }
  let w := { w with showDownload := false }
  { w with downloadUrl := "" }

/-- Environment responses consumed by `handleFileUpload` before it installs
the status-check interval (lines 89–124): the signed-URL request
(`DocumentService.uploadDocument`), the GCS `PUT` (its `ok` flag and
`statusText`), and the process request (`DocumentService.processDocument`).
Response payloads beyond success/failure are elided (see module comment). -/
structure UploadEnv where
  uploadResponse : Except String Unit
  gcsOk : Bool
  gcsStatusText : String
  processResponse : Except String Unit
deriving Repr

/-- The `catch` block of `handleFileUpload` (lines 214–217):
`updateStatus("error", "發生錯誤", 0, message)` then `clearIntervals()`. -/
def uploadCatch (msg : String) (w : World) : World :=
  clearIntervals (updateStatus Stage.error "發生錯誤" 0 (some msg) w)

/-- `handleFileUpload` (lines 89–218) up to and including installing the
status-check interval (line 125).  A rejection of any of the three awaited
steps, or a non-ok GCS response (`throw` at line 110), lands in the `catch`
block.  On success the status-check interval is created and stored —
note: the previous value of `statusCheckInterval.current` is overwritten
without being cleared. -/
def handleFileUpload (env : UploadEnv) (w : World) : World :=
  let w1 := updateStatus Stage.uploading "正在準備上傳..." 10 none w
  match env.uploadResponse with
  | Except.error msg => uploadCatch msg w1
  | Except.ok _ =>
    let w2 := updateStatus Stage.uploading "檔案正在上傳中..." 30 none w1
    if !env.gcsOk then
      uploadCatch ("上傳失敗: " ++ env.gcsStatusText) w2
    else
      let w3 := updateStatus Stage.processing "上傳完成，正在排入處理佇列..." 50 none w2
      match env.processResponse with
      | Except.error msg => uploadCatch msg w3
      | Except.ok _ =>
        let w4 := updateStatus Stage.processing "處理任務已啟動，請稍候..." 60 none w3
        let tw := setIntervalTimer LoopKind.statusCheck w4
        { tw.2 with statusCheckInterval := some tw.1 }

/-- `handleFileSelect` (lines 80–87): if a file is selected and its type is
`"application/pdf"`, run `handleFileUpload`; otherwise show the
invalid-file error. -/
def handleFileSelect (fileType : Option String) (env : UploadEnv)
    (w : World) : World :=
  match fileType with
  | some t =>
    if t = "application/pdf" then handleFileUpload env w
    else updateStatus Stage.error "請選擇有效的 PDF 檔案" 0 (some "檔案格式不正確") w
  | none => updateStatus Stage.error "請選擇有效的 PDF 檔案" 0 (some "檔案格式不正確") w

/-- Environment responses consumed by one status-check callback
(lines 125–213): `TaskService.getTaskStatus` (the `status` string, or a
rejection) and — on the SUCCESS branch — `TaskService.getTaskResult`
(the optional `operation_name`, or a rejection). -/
structure StatusEnv where
  statusResponse : Except String String
  resultOperationName : Except String (Option String)
deriving Repr

/-- The `catch` block of the status-check callback (lines 209–212):
`clearInterval(statusCheckInterval.current!)` then the error update. -/
def statusCatch (msg : String) (w : World) : World :=
  let w := clearInterval w.statusCheckInterval w
  updateStatus Stage.error "檢查任務狀態失敗" 0 (some msg) w

/-- Body of one status-check callback invocation after its first `await`
resolves (lines 126–212).  On `"SUCCESS"`: clear the status interval,
advance to 70, fetch the task result; a missing/empty `operation_name`
throws into the catch; otherwise the operation-check interval is
installed.  On `"FAILURE"`: clear and fail.  Any other status: the
65-percent pending update.  A rejection of either `await` runs the catch
block. -/
def statusTick (env : StatusEnv) (w : World) : World :=
  match env.statusResponse with
  | Except.error msg => statusCatch msg w
  | Except.ok status =>
    if status = "SUCCESS" then
      let w := clearInterval w.statusCheckInterval w
      let w := updateStatus Stage.processing "辨識完成，查詢作業狀態中..." 70 none w
      match env.resultOperationName with
      | Except.error msg => statusCatch msg w
      | Except.ok opName =>
        -- `if (!operationName) throw ...`: falsy covers both an absent
        -- field and the empty string.
        if opName.getD "" = "" then
          statusCatch "任務結果中沒有 operation_name" w
        else
          let tw := setIntervalTimer LoopKind.operationCheck w
          { tw.2 with operationCheckInterval := some tw.1 }
    else if status = "FAILURE" then
      let w := clearInterval w.statusCheckInterval w
      updateStatus Stage.error "處理失敗" 0 (some "任務執行失敗") w
    else
      updateStatus Stage.processing ("處理中... (狀態: " ++ status ++ ")") 65 none w

/-- Environment responses consumed by one operation-check callback
(lines 142–202): `DocumentService.getOperationStatus` (the `done` flag, or
a rejection) and — when done — `DocumentService.convertDocument` (its
`task_id` payload elided, or a rejection). -/
structure OperationEnv where
  operationResponse : Except String Bool
  convertResponse : Except String Unit
deriving Repr

/-- The `catch` block of the operation-check callback (lines 193–201). -/
def operationCatch (msg : String) (w : World) : World :=
  let w := clearInterval w.operationCheckInterval w
  updateStatus Stage.error "查詢作業狀態失敗" 0 (some msg) w

/-- Body of one operation-check callback invocation after its first `await`
resolves (lines 143–201).  On `done`: clear the operation interval, advance
to 80, issue the convert request, advance to 85 and install the
convert-check interval; a rejection of either `await` runs the catch.
Otherwise the 75-percent pending update. -/
def operationTick (env : OperationEnv) (w : World) : World :=
  match env.operationResponse with
  | Except.error msg => operationCatch msg w
  | Except.ok done =>
    if done then
      let w := clearInterval w.operationCheckInterval w
      let w := updateStatus Stage.converting "作業完成！可進行後續轉換。" 80 none w
      match env.convertResponse with
      | Except.error msg => operationCatch msg w
      | Except.ok _ =>
        let w := updateStatus Stage.converting "轉換任務已啟動，請稍候..." 85 none w
        let tw := setIntervalTimer LoopKind.convertCheck w
        { tw.2 with convertCheckInterval := some tw.1 }
    else
      updateStatus Stage.processing "作業處理中，請稍候..." 75 none w

/-- Environment responses consumed by one convert-check callback
(lines 162–189): `TaskService.getTaskStatus` for the convert task and — on
the SUCCESS branch — `TaskService.getTaskResult` (the optional
`gcs_download_path`). -/
structure ConvertEnv where
  convertStatusResponse : Except String String
  resultDownloadPath : Except String (Option String)
deriving Repr

/-- Body of one convert-check callback invocation after its first `await`
resolves (lines 163–188).  Unlike the other two callbacks this one has NO
`try`/`catch`: a rejected `await` is an unhandled promise rejection — the
interval is NOT cleared and no state update happens.  On `"SUCCESS"`:
clear the convert interval, the completed/100 update, then fetch the task
result; `if (gcs_download_path)` — only a truthy (present, non-empty) path
sets `downloadUrl` and shows the download button.  On `"FAILURE"`: clear
and fail.  Any other status: the 90-percent pending update. -/
def convertTick (env : ConvertEnv) (w : World) : World :=
  match env.convertStatusResponse with
  | Except.error _ => w
  | Except.ok status =>
    if status = "SUCCESS" then
      let w := clearInterval w.convertCheckInterval w
      let w := updateStatus Stage.completed "轉換完成！" 100 none w
      match env.resultDownloadPath with
      | Except.error _ => w
      | Except.ok path =>
        if path.getD "" = "" then w
        else { w with downloadUrl := path.getD "", showDownload := true }
    else if status = "FAILURE" then
      let w := clearInterval w.convertCheckInterval w
      updateStatus Stage.error "轉換失敗" 0 (some "轉換過程中發生錯誤") w
    else
      updateStatus Stage.converting ("轉換中... (狀態: " ++ status ++ ")") 90 none w

/-- Environment response consumed by `handleDownload` (lines 220–242):
`DocumentService.downloadDocument`.  The subsequent `fetch(...).then(...)`
chain is fire-and-forget (not awaited, no rejection handler) and touches no
orchestration state, so it is elided. -/
structure DownloadEnv where
  downloadResponse : Except String Unit
deriving Repr

/-- `handleDownload` (lines 220–242): an empty `downloadUrl` throws into the
catch (`"下載 URL 不存在"`); a rejected download request also lands in the
catch; both set the error state.  On success no orchestration state
changes. -/
def handleDownload (env : DownloadEnv) (w : World) : World :=
  if w.downloadUrl = "" then
    updateStatus Stage.error "下載失敗" 0 (some "下載 URL 不存在") w
  else
    match env.downloadResponse with
    | Except.error msg => updateStatus Stage.error "下載失敗" 0 (some msg) w
    | Except.ok _ => w

/-- A timer tick: if timer `t` is live, dispatch one invocation of its
callback (now suspended at its first `await`).  `setInterval` re-fires on
every period whether or not the previous invocation's promise chain has
finished, so several invocations of the same callback can be in flight. -/
def fireTimer (t : Nat) (w : World) : World :=
  match w.activeTimers.find? (fun p => p.1 == t) with
  | some p => { w with inFlight := w.inFlight ++ [p.2] }
  | none => w

/-- Remove one occurrence of `k` from the in-flight list. -/
def removeOne (k : LoopKind) : List LoopKind → List LoopKind
  | [] => []
  | k2 :: rest => if k2 = k then rest else k2 :: removeOne k rest

/-- One atomic event of the browser event loop, from the orchestration
code's point of view. -/
inductive Event where
  /-- `handleFileUpload(file)` runs to the point of installing the
  status-check interval (or into its catch). -/
  | upload (env : UploadEnv)
  /-- `handleFileSelect` with the selected file's MIME type (`none` = no
  file). -/
  | select (fileType : Option String) (env : UploadEnv)
  /-- Timer `t` fires, dispatching its callback. -/
  | fire (t : Nat)
  /-- The first `await` of one in-flight status-check invocation resolves
  and the rest of the callback runs. -/
  | resolveStatus (env : StatusEnv)
  /-- Likewise for an operation-check invocation. -/
  | resolveOperation (env : OperationEnv)
  /-- Likewise for a convert-check invocation. -/
  | resolveConvert (env : ConvertEnv)
  /-- `handleDownload()` runs. -/
  | download (env : DownloadEnv)
  /-- `resetUpload()` runs. -/
  | reset
deriving Repr

/-- Small-step semantics.  A `resolve*` event is a no-op unless an
invocation of that callback is actually in flight, so every event list
denotes a real schedule. -/
def step (w : World) (e : Event) : World :=
  match e with
  | Event.upload env => handleFileUpload env w
  | Event.select ft env => handleFileSelect ft env w
  | Event.fire t => fireTimer t w
  | Event.resolveStatus env =>
    if w.inFlight.contains LoopKind.statusCheck then
      statusTick env { w with inFlight := removeOne LoopKind.statusCheck w.inFlight }
    else w
  | Event.resolveOperation env =>
    if w.inFlight.contains LoopKind.operationCheck then
      operationTick env { w with inFlight := removeOne LoopKind.operationCheck w.inFlight }
    else w
  | Event.resolveConvert env =>
    if w.inFlight.contains LoopKind.convertCheck then
      convertTick env { w with inFlight := removeOne LoopKind.convertCheck w.inFlight }
    else w
  | Event.download env => handleDownload env w
  | Event.reset => resetUpload w

/-- Run a schedule of events from a world. -/
def run (w : World) (es : List Event) : World :=
  es.foldl step w

/-- An upload whose three remote steps all succeed. -/
def happyUploadEnv : UploadEnv :=
  { uploadResponse := Except.ok ()
    gcsOk := true
    gcsStatusText := ""
    processResponse := Except.ok () }

/-! ## Concrete schedules used by the claims

Timer ids are allocated in order: a successful upload installs the
status-check interval as timer 0; the task-poll success branch installs the
operation-check interval as timer 1; the operation-done branch installs the
convert-check interval as timer 2. -/

/-- A successful upload start, one tick of the status-check timer (check now
in flight), then `resetUpload` while that check is still in flight. -/
def c1CancelTrace : List Event :=
  [Event.upload happyUploadEnv, Event.fire 0, Event.reset]

/-- The late resolution of the check that was in flight when `resetUpload`
ran: the remote reports a still-pending status. -/
def c1LateResolve : Event :=
  Event.resolveStatus ⟨Except.ok "PENDING", Except.ok none⟩

/-- Two successful upload starts in a row (the second begins while the first
session's status poll is active), then `resetUpload`. -/
def c2LeakTrace : List Event :=
  [Event.upload happyUploadEnv, Event.upload happyUploadEnv, Event.reset]

/-- Two successful upload starts in a row: the second starts while the first
session is still in the `processing` stage with its status poll active. -/
def c4DoubleUpload : List Event :=
  [Event.upload happyUploadEnv, Event.upload happyUploadEnv]

/-- The happy path up to convert polling: upload succeeds, the task poll
reports SUCCESS with an `operation_name`, the operation poll reports
`done: true` and the convert request succeeds, and the convert-check timer
has fired once (its check is in flight). -/
def toConvertPolling : List Event :=
  [Event.upload happyUploadEnv, Event.fire 0,
   Event.resolveStatus ⟨Except.ok "SUCCESS", Except.ok (some "op-1")⟩,
   Event.fire 1,
   Event.resolveOperation ⟨Except.ok true, Except.ok ()⟩,
   Event.fire 2]

/-- The full happy path: convert polling reports SUCCESS and the task result
carries `gcs_download_path = "X"`. -/
def happyPathTrace : List Event :=
  toConvertPolling ++ [Event.resolveConvert ⟨Except.ok "SUCCESS", Except.ok (some "X")⟩]

/-- Convert polling reports SUCCESS but the task result carries no
`gcs_download_path`. -/
def c10Trace : List Event :=
  toConvertPolling ++ [Event.resolveConvert ⟨Except.ok "SUCCESS", Except.ok none⟩]

/-- A successful upload whose status-check timer fires twice before either
check resolves (the interval re-fires while the first check is still
pending), after which the second dispatch resolves with SUCCESS. -/
def c6OverlapTrace : List Event :=
  [Event.upload happyUploadEnv, Event.fire 0, Event.fire 0,
   Event.resolveStatus ⟨Except.ok "SUCCESS", Except.ok (some "op-1")⟩]

/-- A successful upload whose status poll observes the status sequence
PENDING, PENDING, SUCCESS, each check resolving before the next tick. -/
def c7PPSTrace : List Event :=
  [Event.upload happyUploadEnv,
   Event.fire 0, Event.resolveStatus ⟨Except.ok "PENDING", Except.ok none⟩,
   Event.fire 0, Event.resolveStatus ⟨Except.ok "PENDING", Except.ok none⟩,
   Event.fire 0, Event.resolveStatus ⟨Except.ok "SUCCESS", Except.ok (some "op-1")⟩]

/-! ## Basic lemmas about the embedded operations -/

theorem clearInterval_uploadStatus (h : Option Nat) (w : World) :
    (clearInterval h w).uploadStatus = w.uploadStatus := by
  cases h <;> rfl

theorem clearInterval_downloadUrl (h : Option Nat) (w : World) :
    (clearInterval h w).downloadUrl = w.downloadUrl := by
  cases h <;> rfl

theorem clearIntervals_uploadStatus (w : World) :
    (clearIntervals w).uploadStatus = w.uploadStatus := by
  rcases hs : w.statusCheckInterval with _ | t1 <;>
    rcases ho : w.operationCheckInterval with _ | t2 <;>
      rcases hc : w.convertCheckInterval with _ | t3 <;>
        simp [clearIntervals, clearInterval, hs, ho, hc]

/-- After `clearIntervals` all three interval refs are `null`. -/
theorem clearIntervals_refs (w : World) :
    (clearIntervals w).statusCheckInterval = none
    ∧ (clearIntervals w).operationCheckInterval = none
    ∧ (clearIntervals w).convertCheckInterval = none := by
  rcases hs : w.statusCheckInterval with _ | t1 <;>
    rcases ho : w.operationCheckInterval with _ | t2 <;>
      rcases hc : w.convertCheckInterval with _ | t3 <;>
        simp [clearIntervals, clearInterval, hs, ho, hc]

/-- A timer that survives `clearIntervals` was already live before, and its
id is named by none of the three interval refs. -/
theorem mem_clearIntervals (w : World) (p : Nat × LoopKind)
    (hp : p ∈ (clearIntervals w).activeTimers) :
    p ∈ w.activeTimers
    ∧ w.statusCheckInterval ≠ some p.1
    ∧ w.operationCheckInterval ≠ some p.1
    ∧ w.convertCheckInterval ≠ some p.1 := by
  rcases hs : w.statusCheckInterval with _ | t1 <;>
    rcases ho : w.operationCheckInterval with _ | t2 <;>
      rcases hc : w.convertCheckInterval with _ | t3 <;>
        simp [clearIntervals, clearInterval, hs, ho, hc, List.mem_filter] at hp ⊢ <;>
          tauto

/-- `resetUpload` leaves exactly the timers of `clearIntervals`. -/
theorem mem_resetUpload (w : World) (p : Nat × LoopKind)
    (hp : p ∈ (resetUpload w).activeTimers) :
    p ∈ w.activeTimers
    ∧ w.statusCheckInterval ≠ some p.1
    ∧ w.operationCheckInterval ≠ some p.1
    ∧ w.convertCheckInterval ≠ some p.1 :=
  mem_clearIntervals w p hp

/-- A timer that one of the three refs pointed to can never fire again after
`resetUpload`: it is no longer live, so `fireTimer` is a no-op on it. -/
theorem fireTimer_resetUpload (w : World) (t : Nat)
    (h : w.statusCheckInterval = some t ∨ w.operationCheckInterval = some t
      ∨ w.convertCheckInterval = some t) :
    fireTimer t (resetUpload w) = resetUpload w := by
  have hfind : (resetUpload w).activeTimers.find? (fun p => p.1 == t) = none := by
    apply List.find?_eq_none.mpr
    intro p hp hbeq
    have hpt : p.1 = t := by simpa using hbeq
    have h4 := mem_resetUpload w p hp
    rcases h with h | h | h
    · exact h4.2.1 (by rw [h, hpt])
    · exact h4.2.2.1 (by rw [h, hpt])
    · exact h4.2.2.2 (by rw [h, hpt])
  unfold fireTimer
  rw [hfind]

theorem uploadCatch_progress (m : String) (w : World) :
    (uploadCatch m w).uploadStatus.progress = 0 := by
  simp [uploadCatch, clearIntervals_uploadStatus, updateStatus]

theorem handleFileUpload_progress (env : UploadEnv) (w : World) :
    (handleFileUpload env w).uploadStatus.progress ≤ 100 := by
  rcases env with ⟨ur, g, gs, pr⟩
  rcases ur with m | u
  · simp [handleFileUpload, uploadCatch_progress]
  · cases g
    · simp [handleFileUpload, uploadCatch_progress]
    · rcases pr with m | u2 <;>
        simp [handleFileUpload, uploadCatch_progress, updateStatus, setIntervalTimer]

theorem statusCatch_progress (m : String) (w : World) :
    (statusCatch m w).uploadStatus.progress = 0 := by
  simp [statusCatch, updateStatus]

theorem statusTick_progress (env : StatusEnv) (w : World) :
    (statusTick env w).uploadStatus.progress ≤ 100 := by
  rcases env with ⟨sr, ro⟩
  rcases sr with m | status
  · simp [statusTick, statusCatch_progress]
  · by_cases h1 : status = "SUCCESS"
    · rcases ro with m | op
      · simp [statusTick, h1, statusCatch_progress]
      · by_cases h2 : op.getD "" = "" <;>
          simp [statusTick, h1, h2, statusCatch_progress, updateStatus, setIntervalTimer,
            clearInterval_uploadStatus]
    · by_cases h2 : status = "FAILURE" <;>
        simp [statusTick, h1, h2, updateStatus, clearInterval_uploadStatus]

theorem operationCatch_progress (m : String) (w : World) :
    (operationCatch m w).uploadStatus.progress = 0 := by
  simp [operationCatch, updateStatus]

theorem operationTick_progress (env : OperationEnv) (w : World) :
    (operationTick env w).uploadStatus.progress ≤ 100 := by
  rcases env with ⟨opr, cr⟩
  rcases opr with m | done
  · simp [operationTick, operationCatch_progress]
  · cases done
    · simp [operationTick, updateStatus]
    · rcases cr with m | u <;>
        simp [operationTick, operationCatch_progress, updateStatus, setIntervalTimer,
          clearInterval_uploadStatus]

theorem convertTick_progress (env : ConvertEnv) (w : World)
    (h : w.uploadStatus.progress ≤ 100) :
    (convertTick env w).uploadStatus.progress ≤ 100 := by
  rcases env with ⟨cs, rp⟩
  rcases cs with m | status
  · simpa [convertTick] using h
  · by_cases h1 : status = "SUCCESS"
    · rcases rp with m | path
      · simp [convertTick, h1, updateStatus, clearInterval_uploadStatus]
      · by_cases h2 : path.getD "" = "" <;>
          simp [convertTick, h1, h2, updateStatus, clearInterval_uploadStatus]
    · by_cases h2 : status = "FAILURE" <;>
        simp [convertTick, h1, h2, updateStatus, clearInterval_uploadStatus]

theorem handleDownload_progress (env : DownloadEnv) (w : World)
    (h : w.uploadStatus.progress ≤ 100) :
    (handleDownload env w).uploadStatus.progress ≤ 100 := by
  rcases env with ⟨dr⟩
  by_cases hu : w.downloadUrl = ""
  · simp [handleDownload, hu, updateStatus]
  · rcases dr with m | u
    · simp [handleDownload, hu, updateStatus]
    · simpa [handleDownload, hu] using h

/-- Every event keeps `progress` within the 0–100 range: each state update in
the source writes one of the literals 0, 10, 30, 50, 60, 65, 70, 75, 80, 85,
90, 100 or leaves the value unchanged. -/
theorem step_progress (w : World) (e : Event)
    (h : w.uploadStatus.progress ≤ 100) :
    (step w e).uploadStatus.progress ≤ 100 := by
  cases e with
  | upload env => exact handleFileUpload_progress env w
  | select ft env =>
    rcases ft with _ | t
    · simp [step, handleFileSelect, updateStatus]
    · by_cases hp : t = "application/pdf"
      · simpa [step, handleFileSelect, hp] using handleFileUpload_progress env w
      · simp [step, handleFileSelect, hp, updateStatus]
  | fire t =>
    unfold step fireTimer
    cases hf : w.activeTimers.find? (fun p => p.1 == t) <;> simpa [hf] using h
  | resolveStatus env =>
    by_cases hc : w.inFlight.contains LoopKind.statusCheck = true <;> simp [step, hc]
    · exact statusTick_progress env _
    · exact h
  | resolveOperation env =>
    by_cases hc : w.inFlight.contains LoopKind.operationCheck = true <;> simp [step, hc]
    · exact operationTick_progress env _
    · exact h
  | resolveConvert env =>
    by_cases hc : w.inFlight.contains LoopKind.convertCheck = true <;> simp [step, hc]
    · exact convertTick_progress env _ h
    · exact h
  | download env => exact handleDownload_progress env w h
  | reset =>
    have hr : (resetUpload w).uploadStatus.progress = 0 := rfl
    simp [step, hr]

/-- `progress` stays in 0–100 along every schedule from the initial state. -/
theorem run_progress (es : List Event) :
    (run initialWorld es).uploadStatus.progress ≤ 100 := by
  suffices h : ∀ w : World, w.uploadStatus.progress ≤ 100 →
      (run w es).uploadStatus.progress ≤ 100 from
    h initialWorld (by simp [initialWorld])
  induction es with
  | nil => intro w h; exact h
  | cons e rest ih => intro w h; exact ih (step w e) (step_progress w e h)

/-! ## The claims -/

/-- C1 counterexample: the claim that a cancelled poll loop discards the
result of an in-flight check is false.  After a successful upload start, one
status-check tick is in flight when `resetUpload` cancels the loop (state
back to idle, zero live timers) — yet when that in-flight check resolves,
its outcome callback is still applied: the state leaves `idle` and becomes
`processing` at 65 percent.  The code has no per-handle "still current"
guard. -/
theorem c1_counterexample :
    (run initialWorld c1CancelTrace).uploadStatus.stage = Stage.idle
    ∧ (run initialWorld c1CancelTrace).activeTimers = []
    ∧ (step (run initialWorld c1CancelTrace) c1LateResolve).uploadStatus.stage
        = Stage.processing
    ∧ (step (run initialWorld c1CancelTrace) c1LateResolve).uploadStatus.progress = 65 :=
  ⟨rfl, rfl, rfl, rfl⟩

/-- C1 (amended): cancelling via `resetUpload` stops all future invocations
of the timers the three interval refs hold — a cancelled timer can never
fire again — but the eventual result of a check already in flight is NOT
discarded: when it resolves, its outcome callback still updates the state
(here, back to `processing` after the reset had returned it to idle). -/
theorem c1_cancel_stops_timer_not_inflight (w : World) (t : Nat)
    (h : w.statusCheckInterval = some t ∨ w.operationCheckInterval = some t
      ∨ w.convertCheckInterval = some t) :
    fireTimer t (resetUpload w) = resetUpload w
    ∧ (step (run initialWorld c1CancelTrace) c1LateResolve).uploadStatus.stage
        = Stage.processing :=
  ⟨fireTimer_resetUpload w t h, rfl⟩

/-- C1 witness: the amended theorem applied to the world after a successful
upload start, whose status-check ref holds timer 0. -/
theorem c1_witness :
    fireTimer 0 (resetUpload (run initialWorld [Event.upload happyUploadEnv]))
      = resetUpload (run initialWorld [Event.upload happyUploadEnv])
    ∧ (step (run initialWorld c1CancelTrace) c1LateResolve).uploadStatus.stage
        = Stage.processing :=
  c1_cancel_stops_timer_not_inflight (run initialWorld [Event.upload happyUploadEnv]) 0
    (Or.inl rfl)

/-- C2 counterexample: the claim that reset cancels every still-active poll
interval, leaving zero active handles, is false.  Starting a second upload
while the first session's status poll (timer 0) is active overwrites
`statusCheckInterval.current` without clearing timer 0; the subsequent
`resetUpload` puts the state in exactly the idle shape but only clears the
timer the ref holds (timer 1) — timer 0 survives reset and keeps polling. -/
theorem c2_counterexample :
    (run initialWorld c2LeakTrace).uploadStatus = ⟨Stage.idle, "", 0, none⟩
    ∧ (run initialWorld c2LeakTrace).activeTimers = [(0, LoopKind.statusCheck)] :=
  ⟨rfl, rfl⟩

/-- C2 (amended): `resetUpload` from any non-idle stage returns the pipeline
state to exactly `{stage: idle, progress: 0, message: "", error: undefined}`,
clears the stored download URL and hides the download control, nulls all
three interval refs, and cancels every poll interval one of the refs holds;
however a poll interval whose handle was displaced from its ref (by starting
a second upload over an active session) is not cancelled — any timer
surviving reset was live before it and is named by none of the three refs. -/
theorem c2_reset_state (w : World) (h : w.uploadStatus.stage ≠ Stage.idle) :
    (resetUpload w).uploadStatus = ⟨Stage.idle, "", 0, none⟩
    ∧ (resetUpload w).downloadUrl = ""
    ∧ (resetUpload w).showDownload = false
    ∧ (resetUpload w).statusCheckInterval = none
    ∧ (resetUpload w).operationCheckInterval = none
    ∧ (resetUpload w).convertCheckInterval = none
    ∧ ∀ p ∈ (resetUpload w).activeTimers,
        p ∈ w.activeTimers ∧ w.statusCheckInterval ≠ some p.1
        ∧ w.operationCheckInterval ≠ some p.1 ∧ w.convertCheckInterval ≠ some p.1 := by
  refine ⟨rfl, rfl, rfl, ?_, ?_, ?_, fun p hp => mem_resetUpload w p hp⟩
  · exact (clearIntervals_refs w).1
  · exact (clearIntervals_refs w).2.1
  · exact (clearIntervals_refs w).2.2

/-- C2 witness: the amended theorem applied to the world after a successful
upload start, which is in the non-idle `processing` stage. -/
theorem c2_witness :
    (resetUpload (run initialWorld [Event.upload happyUploadEnv])).uploadStatus
        = ⟨Stage.idle, "", 0, none⟩
    ∧ (resetUpload (run initialWorld [Event.upload happyUploadEnv])).downloadUrl = ""
    ∧ (resetUpload (run initialWorld [Event.upload happyUploadEnv])).showDownload = false
    ∧ (resetUpload (run initialWorld [Event.upload happyUploadEnv])).statusCheckInterval = none
    ∧ (resetUpload (run initialWorld [Event.upload happyUploadEnv])).operationCheckInterval
        = none
    ∧ (resetUpload (run initialWorld [Event.upload happyUploadEnv])).convertCheckInterval
        = none
    ∧ ∀ p ∈ (resetUpload (run initialWorld [Event.upload happyUploadEnv])).activeTimers,
        p ∈ (run initialWorld [Event.upload happyUploadEnv]).activeTimers
        ∧ (run initialWorld [Event.upload happyUploadEnv]).statusCheckInterval ≠ some p.1
        ∧ (run initialWorld [Event.upload happyUploadEnv]).operationCheckInterval ≠ some p.1
        ∧ (run initialWorld [Event.upload happyUploadEnv]).convertCheckInterval ≠ some p.1 :=
  c2_reset_state (run initialWorld [Event.upload happyUploadEnv]) (by decide)

/-- C3: the convert-check interval callback (lines 162–189) has no
`try`/`catch`, unlike the other two poll callbacks.  When its
`getTaskStatus` call rejects during convert polling, the rejection is
unhandled: the pipeline state does not change at all (no error transition)
and the convert interval is NOT cleared — timer 2 stays live and keeps
polling.  This contradicts the failure semantics the other two loops
implement (clear the interval, transition to error). -/
theorem c3_convert_rejection_unhandled :
    (run initialWorld toConvertPolling).uploadStatus.stage = Stage.converting
    ∧ (run initialWorld (toConvertPolling
        ++ [Event.resolveConvert ⟨Except.error "Network Error", Except.ok none⟩])).uploadStatus
        = (run initialWorld toConvertPolling).uploadStatus
    ∧ (run initialWorld (toConvertPolling
        ++ [Event.resolveConvert ⟨Except.error "Network Error", Except.ok none⟩])).activeTimers
        = [(2, LoopKind.convertCheck)] :=
  ⟨rfl, rfl, rfl⟩

/-- C4 counterexample: the claim that starting a new session cancels all
prior poll intervals before any new remote call is false.  A second upload
started while the first session is in `processing` (status poll timer 0
active) issues all its remote calls without any cancellation: afterwards
both sessions' status-poll timers (0 and 1) are active concurrently, and
the ref only tracks the new one. -/
theorem c4_counterexample :
    (run initialWorld [Event.upload happyUploadEnv]).uploadStatus.stage = Stage.processing
    ∧ (run initialWorld c4DoubleUpload).activeTimers
        = [(0, LoopKind.statusCheck), (1, LoopKind.statusCheck)]
    ∧ (run initialWorld c4DoubleUpload).statusCheckInterval = some 1 :=
  ⟨rfl, rfl, rfl⟩

/-- C4 (amended): `handleFileUpload` performs no cancellation: a successful
upload start leaves every previously active poll timer running and adds the
new session's status-check timer, overwriting the ref — so a session started
over an active one runs its poll loops concurrently with the prior
session's. -/
theorem c4_upload_keeps_prior_timers (w : World) :
    (handleFileUpload happyUploadEnv w).activeTimers
      = w.activeTimers ++ [(w.nextTimer, LoopKind.statusCheck)]
    ∧ (handleFileUpload happyUploadEnv w).statusCheckInterval = some w.nextTimer := by
  constructor <;>
    simp [handleFileUpload, happyUploadEnv, updateStatus, setIntervalTimer]

/-- C5 counterexample: the claim that only `resetUpload` leaves the terminal
stages — in particular that nothing moves `completed` to `error` — is
false.  From the completed happy-path state, `handleDownload` whose
download request rejects transitions the stage from `completed` to
`error`. -/
theorem c5_counterexample :
    (run initialWorld happyPathTrace).uploadStatus.stage = Stage.completed
    ∧ (step (run initialWorld happyPathTrace)
        (Event.download ⟨Except.error "network down"⟩)).uploadStatus.stage = Stage.error :=
  ⟨rfl, rfl⟩

/-- C5 (amended): `resetUpload` from any state — in particular from
`completed` or `error` — returns the stage to `idle`; but `completed` is not
otherwise terminal: a failed download attempt moves the state from
`completed` to `error`. -/
theorem c5_terminal_stages (w : World) :
    (resetUpload w).uploadStatus.stage = Stage.idle
    ∧ (handleDownload ⟨Except.error "network down"⟩
        (run initialWorld happyPathTrace)).uploadStatus.stage = Stage.error :=
  ⟨rfl, rfl⟩

/-- C6 counterexample: the claim that progress is monotonically
non-decreasing while the stage is not `error` is false.  `setInterval`
re-fires while a previous check is still pending, so two status checks can
be in flight at once; if the later dispatch resolves first with SUCCESS
(progress 70), the earlier check's late PENDING resolution then lowers
progress back to 65 — with the stage equal to `processing` before and
after, and no reset involved. -/
theorem c6_counterexample :
    (run initialWorld c6OverlapTrace).uploadStatus.stage = Stage.processing
    ∧ (run initialWorld c6OverlapTrace).uploadStatus.progress = 70
    ∧ (step (run initialWorld c6OverlapTrace)
        (Event.resolveStatus ⟨Except.ok "PENDING", Except.ok none⟩)).uploadStatus.stage
        = Stage.processing
    ∧ (step (run initialWorld c6OverlapTrace)
        (Event.resolveStatus ⟨Except.ok "PENDING", Except.ok none⟩)).uploadStatus.progress
        = 65 :=
  ⟨rfl, rfl, rfl, rfl⟩

/-- C6 (amended): progress is an integer that stays within 0–100 along every
schedule (every update writes one of the fixed checkpoint literals), but it
is not monotonically non-decreasing outside `error`: overlapping in-flight
status checks can lower it (strictly) without any reset. -/
theorem c6_progress_range (es : List Event) :
    (run initialWorld es).uploadStatus.progress ≤ 100
    ∧ (step (run initialWorld c6OverlapTrace)
        (Event.resolveStatus ⟨Except.ok "PENDING", Except.ok none⟩)).uploadStatus.progress
      < (run initialWorld c6OverlapTrace).uploadStatus.progress :=
  ⟨run_progress es, by decide⟩

/-- C7 counterexample: the claim that the PENDING, PENDING, SUCCESS sequence
drives the stage from Processing to AwaitingOperation — AwaitingOperation
being one of the stage values — is false.  The stage type has exactly six
values (`idle`, `uploading`, `processing`, `converting`, `completed`,
`error`): there is no AwaitingOperation value, and after the SUCCESS
resolution the stage is still `processing`, the same value as before it. -/
theorem c7_counterexample :
    Fintype.card Stage = 6
    ∧ (run initialWorld (c7PPSTrace.take 6)).uploadStatus.stage = Stage.processing
    ∧ (run initialWorld c7PPSTrace).uploadStatus.stage = Stage.processing :=
  ⟨by decide, rfl, rfl⟩

/-- C7 (amended): every stage value is one of the six declared ones (no
AwaitingOperation exists); on PENDING, PENDING, SUCCESS the stage remains
`processing` throughout — progress 65 after each pending tick, then the
success branch runs exactly once, ending at progress 70 with the status
interval cleared and exactly one operation-check interval started. -/
theorem c7_pending_pending_success :
    (∀ s : Stage, s = Stage.idle ∨ s = Stage.uploading ∨ s = Stage.processing
      ∨ s = Stage.converting ∨ s = Stage.completed ∨ s = Stage.error)
    ∧ (run initialWorld (c7PPSTrace.take 3)).uploadStatus.progress = 65
    ∧ (run initialWorld (c7PPSTrace.take 5)).uploadStatus.progress = 65
    ∧ (run initialWorld c7PPSTrace).uploadStatus
        = ⟨Stage.processing, "辨識完成，查詢作業狀態中...", 70, none⟩
    ∧ (run initialWorld c7PPSTrace).activeTimers = [(1, LoopKind.operationCheck)]
    ∧ (run initialWorld c7PPSTrace).operationCheckInterval = some 1 :=
  ⟨fun s => by cases s <;> tauto, rfl, rfl, rfl, rfl, rfl⟩

/-- C8: when the convert poll observes status FAILURE, the pipeline
transitions to the `error` stage carrying the non-empty error description
`"轉換過程中發生錯誤"`, the convert interval (the timer the convert ref holds)
is cleared, and the download URL — unset before — remains unset. -/
theorem c8_convert_failure (w : World) (t : Nat) (r : Except String (Option String))
    (hin : w.inFlight.contains LoopKind.convertCheck = true)
    (href : w.convertCheckInterval = some t)
    (hurl : w.downloadUrl = "") :
    (step w (Event.resolveConvert ⟨Except.ok "FAILURE", r⟩)).uploadStatus.stage = Stage.error
    ∧ (step w (Event.resolveConvert ⟨Except.ok "FAILURE", r⟩)).uploadStatus.error
        = some "轉換過程中發生錯誤"
    ∧ (∀ k, (t, k) ∉ (step w (Event.resolveConvert ⟨Except.ok "FAILURE", r⟩)).activeTimers)
    ∧ (step w (Event.resolveConvert ⟨Except.ok "FAILURE", r⟩)).downloadUrl = "" := by
  have hstep : step w (Event.resolveConvert ⟨Except.ok "FAILURE", r⟩)
      = updateStatus Stage.error "轉換失敗" 0 (some "轉換過程中發生錯誤")
          (clearInterval (some t)
            { w with inFlight := removeOne LoopKind.convertCheck w.inFlight }) := by
    simp [step, hin, convertTick, href]
  rw [hstep]
  refine ⟨rfl, rfl, ?_, ?_⟩
  · intro k hk
    simp [updateStatus, clearInterval, List.mem_filter] at hk
  · simpa [updateStatus, clearInterval] using hurl

/-- C8 witness: the theorem applied to the happy-path world polling the
convert task (convert ref holds timer 2, one check in flight, download URL
still unset). -/
theorem c8_witness :
    (step (run initialWorld toConvertPolling)
        (Event.resolveConvert ⟨Except.ok "FAILURE", Except.ok none⟩)).uploadStatus.stage
        = Stage.error
    ∧ (step (run initialWorld toConvertPolling)
        (Event.resolveConvert ⟨Except.ok "FAILURE", Except.ok none⟩)).uploadStatus.error
        = some "轉換過程中發生錯誤"
    ∧ (∀ k, (2, k) ∉ (step (run initialWorld toConvertPolling)
        (Event.resolveConvert ⟨Except.ok "FAILURE", Except.ok none⟩)).activeTimers)
    ∧ (step (run initialWorld toConvertPolling)
        (Event.resolveConvert ⟨Except.ok "FAILURE", Except.ok none⟩)).downloadUrl = "" :=
  c8_convert_failure (run initialWorld toConvertPolling) 2 (Except.ok none) rfl rfl rfl

/-- C9: the full happy path — upload target issued, bytes transfer succeeds,
the task reaches SUCCESS with an `operation_name`, the operation reports
`done: true`, the convert task reaches SUCCESS with
`gcs_download_path = "X"` — ends in stage `completed` with progress 100,
download URL `"X"`, the download control shown, and no timer left live. -/
theorem c9_happy_path :
    (run initialWorld happyPathTrace).uploadStatus.stage = Stage.completed
    ∧ (run initialWorld happyPathTrace).uploadStatus.progress = 100
    ∧ (run initialWorld happyPathTrace).downloadUrl = "X"
    ∧ (run initialWorld happyPathTrace).showDownload = true
    ∧ (run initialWorld happyPathTrace).activeTimers = [] :=
  ⟨rfl, rfl, rfl, rfl, rfl⟩

/-- C10: when the convert task reaches SUCCESS but its result carries no
`gcs_download_path`, the pipeline still ends in `completed` with progress
100, yet the download URL stays empty and `showDownload` — the render guard
of the download control (lines 347–355) — is false at every point of the
schedule: completion does not imply an obtainable artifact. -/
theorem c10_completed_without_path :
    (run initialWorld c10Trace).uploadStatus.stage = Stage.completed
    ∧ (run initialWorld c10Trace).uploadStatus.progress = 100
    ∧ (run initialWorld c10Trace).downloadUrl = ""
    ∧ (run initialWorld c10Trace).showDownload = false
    ∧ ((List.range (c10Trace.length + 1)).all
        (fun n => !(run initialWorld (c10Trace.take n)).showDownload)) = true :=
  ⟨rfl, rfl, rfl, rfl, rfl⟩
